import Mathlib

/-!
Verification of the auto-cpufreq-rust control-loop core.

Shallow embedding of the governor/turbo policy engine (`src/core.rs`),
the configuration store (`src/config/config.rs`), governor discovery
(`src/globals.rs`), battery discovery (`src/modules/system_info.rs`),
the Ideapad-Laptop battery-threshold manager
(`src/battery/ideapad_laptop.rs`) and the daemon supervisor
(`src/core.rs`).  File-system interaction is made explicit: the contents
a function would read become parameters (`Option (Option String)` is
"file missing / unreadable / contents"), and side effects become traces.
Rust `f32` quantities that only ever feed exact order comparisons
against decimal constants are modelled as `ℚ` (all constants involved
are exactly representable in `f32`, so the comparisons agree).
-/

namespace AutoCpufreq

/-- Rust's `str::trim`: drop leading and trailing whitespace.  Defined
structurally on the character list so that it evaluates by `decide`. -/
def rust_trim (s : String) : String :=
  String.mk (((s.data.dropWhile Char.isWhitespace).reverse.dropWhile
    Char.isWhitespace).reverse)

/-- Rust's `str::to_lowercase` restricted to ASCII (all comparisons in
the source use ASCII tokens), structural for evaluability. -/
def rust_to_lower (s : String) : String :=
  String.mk (s.data.map Char.toLower)

/-! ## Governor and turbo overrides (`src/core.rs`, lines 298–411) -/

inductive GovernorOverride
  | Default
  | Powersave
  | Performance
  deriving DecidableEq, Repr

/-- `GovernorOverride::from_str` (core.rs 306–312). -/
def GovernorOverride.fromStr (s : String) : GovernorOverride :=
  if s = "powersave" then GovernorOverride.Powersave
  else if s = "performance" then GovernorOverride.Performance
  else GovernorOverride.Default

inductive TurboOverride
  | Auto
  | Never
  | Always
  deriving DecidableEq, Repr

/-- `TurboOverride::from_str` (core.rs 365–371). -/
def TurboOverride.fromStr (s : String) : TurboOverride :=
  if s = "never" then TurboOverride.Never
  else if s = "always" then TurboOverride.Always
  else TurboOverride.Auto

/-- `get_override` (core.rs 323–332).  The override file is a parameter:
`none` = file does not exist, `some none` = exists but `read_to_string`
fails, `some (some s)` = contents `s`.  Contents are trimmed before
matching, exactly as `s.trim()` in the source. -/
def get_override (file : Option (Option String)) : GovernorOverride :=
  match file with
  | some (some s) => GovernorOverride.fromStr (rust_trim s)
  | some none => GovernorOverride.Default
  | none => GovernorOverride.Default

/-- `get_turbo_override` (core.rs 382–391), same file model. -/
def get_turbo_override (file : Option (Option String)) : TurboOverride :=
  match file with
  | some (some s) => TurboOverride.fromStr (rust_trim s)
  | some none => TurboOverride.Auto
  | none => TurboOverride.Auto

/-! ## Supported-governor discovery (`src/globals.rs`) -/

/-- `ALL_GOVERNORS` (globals.rs 6–13): the fixed priority order. -/
def ALL_GOVERNORS : List String :=
  ["performance", "ondemand", "conservative", "schedutil", "userspace", "powersave"]

/-- `sort_governors` (globals.rs 59–70): keep `ALL_GOVERNORS` order,
restricted to the governors the kernel reported as available
(`AVAILABLE_GOVERNORS` is the whitespace-split of
`scaling_available_governors`, in kernel order). -/
def sort_governors (available : List String) : List String :=
  ALL_GOVERNORS.filter (fun gov => available.contains gov)

/-! ## Governor decision (`get_appropriate_governor`, core.rs 1377–1430)

The configuration store is represented by the two values the function
reads: the `[charger] governor` and `[battery] governor` options, each
an `Option String` (`CONFIG.has_option` = `isSome`, `CONFIG.get` with
fallback `""` = `getD ""`).  `AVAILABLE_GOVERNORS_SORTED` is
`sort_governors available`.  The two load thresholds come from
`AutoCpuFreqState::new` (core.rs 203–221):
`(50 * cpu_count) as f32 / 100.0` and `(75 * cpu_count) as f32 / 100.0`,
both exact in `f32` for realistic core counts, hence modelled in `ℚ`. -/

/-- The condition under which a configuration-section governor is used
(core.rs 1387–1403, minus the power-source test): the option is present,
non-empty, and contained in the sorted available list. -/
def config_gov_applies (gov : Option String) (sorted : List String) : Bool :=
  gov.isSome && (decide (gov.getD "" ≠ "") && sorted.contains (gov.getD ""))

/-- The `if is_charging { ... }` arm of `get_appropriate_governor`
(core.rs 1405–1415 and the shared fallback 1427–1429). -/
def choose_governor_charging (sorted : List String) (cpu_usage load thr : ℚ) : String :=
  if (cpu_usage > 50 ∨ load > thr) ∧ sorted.contains "performance" = true then
    "performance"
  else if sorted.contains "schedutil" then "schedutil"
  else if sorted.contains "ondemand" then "ondemand"
  else sorted.headD "schedutil"

/-- The `else { ... }` (on battery) arm of `get_appropriate_governor`
(core.rs 1416–1425 and the shared fallback 1427–1429). -/
def choose_governor_battery (sorted : List String) (cpu_usage load thr : ℚ) : String :=
  if (cpu_usage < 25 ∧ load < thr) ∧ sorted.contains "powersave" = true then
    "powersave"
  else if sorted.contains "schedutil" then "schedutil"
  else sorted.headD "schedutil"

/-- `get_appropriate_governor` (core.rs 1377–1430). -/
def get_appropriate_governor (govFile : Option (Option String))
    (chargerGov batteryGov : Option String) (available : List String)
    (is_charging : Bool) (cpu_usage load : ℚ) (cpu_count : ℕ) : String :=
  match get_override govFile with
  | GovernorOverride.Performance => "performance"
  | GovernorOverride.Powersave => "powersave"
  | GovernorOverride.Default =>
    if is_charging && config_gov_applies chargerGov (sort_governors available) then
      chargerGov.getD ""
    else if (!is_charging) && config_gov_applies batteryGov (sort_governors available) then
      batteryGov.getD ""
    else if is_charging then
      choose_governor_charging (sort_governors available) cpu_usage load
        ((50 * cpu_count : ℚ) / 100)
    else
      choose_governor_battery (sort_governors available) cpu_usage load
        ((75 * cpu_count : ℚ) / 100)

end AutoCpufreq

section GovernorClaims

open AutoCpufreq

example :
    get_appropriate_governor none none none
      ["performance", "schedutil", "powersave"] true 60 3 4 = "performance" := by
  norm_num [get_appropriate_governor, get_override, config_gov_applies, sort_governors,
    ALL_GOVERNORS, choose_governor_charging]

example :
    get_appropriate_governor none none none
      ["performance", "schedutil", "powersave"] false 10 (1/5) 4 = "powersave" := by
  norm_num [get_appropriate_governor, get_override, config_gov_applies, sort_governors,
    ALL_GOVERNORS, choose_governor_battery]

/-- C1: with no persisted non-Default override, no applicable
charger-section governor, charging, "performance" supported, and either
aggregate usage above 50 % or 1-minute load above `0.5 × core_count`,
the governor decision returns "performance". -/
theorem charging_busy_gives_performance (govFile : Option (Option String))
    (chargerGov batteryGov : Option String) (available : List String)
    (usage load : ℚ) (n : ℕ)
    (hov : get_override govFile = GovernorOverride.Default)
    (hcfg : config_gov_applies chargerGov (sort_governors available) = false)
    (hperf : (sort_governors available).contains "performance" = true)
    (hbusy : usage > 50 ∨ load > (n : ℚ) / 2) :
    get_appropriate_governor govFile chargerGov batteryGov available true usage load n
      = "performance" := by
  have hthr : (50 * (n : ℚ)) / 100 = (n : ℚ) / 2 := by ring
  have hbusy2 : usage > 50 ∨ load > (50 * (n : ℚ)) / 100 := by
    rw [hthr]; exact hbusy
  simp only [get_appropriate_governor, hov]
  rw [if_neg (by simp [hcfg]), if_neg (by simp), if_pos trivial]
  simp only [choose_governor_charging]
  rw [if_pos ⟨hbusy2, hperf⟩]

/-- Witness for `charging_busy_gives_performance` at the spec's concrete
input: usage 60 %, charging, load 3.0, 4 cores, governors
{performance, schedutil, powersave} supported. -/
theorem charging_busy_gives_performance_witness :
    get_appropriate_governor none none none
      ["performance", "schedutil", "powersave"] true 60 3 4 = "performance" :=
  charging_busy_gives_performance none none none
    ["performance", "schedutil", "powersave"] 60 3 4
    (by decide) (by decide) (by decide) (by left; norm_num)

/-- C3: a persisted Performance override always yields "performance"
and a persisted Powersave override always yields "powersave",
regardless of usage, load, charging state, configuration-section
governors, and the supported governor set — the override is matched
before any other rule in `get_appropriate_governor`. -/
theorem override_always_wins (govFile : Option (Option String))
    (chargerGov batteryGov : Option String) (available : List String)
    (is_charging : Bool) (usage load : ℚ) (n : ℕ) :
    (get_override govFile = GovernorOverride.Performance →
      get_appropriate_governor govFile chargerGov batteryGov available
        is_charging usage load n = "performance") ∧
    (get_override govFile = GovernorOverride.Powersave →
      get_appropriate_governor govFile chargerGov batteryGov available
        is_charging usage load n = "powersave") := by
  constructor <;> intro h <;> simp only [get_appropriate_governor, h]

/-- Witness for `override_always_wins`: a Performance override beats an
idle battery state with a powersave config governor, and a Powersave
override beats a busy charging state with a performance config governor. -/
theorem override_always_wins_witness :
    get_appropriate_governor (some (some "performance")) (some "powersave") (some "powersave")
      ["powersave", "schedutil", "performance"] false 0 0 4 = "performance" ∧
    get_appropriate_governor (some (some "powersave")) (some "performance") (some "performance")
      ["powersave", "schedutil", "performance"] true 90 9 4 = "powersave" :=
  ⟨(override_always_wins (some (some "performance")) (some "powersave") (some "powersave")
      ["powersave", "schedutil", "performance"] false 0 0 4).1 (by decide),
   (override_always_wins (some (some "powersave")) (some "performance") (some "performance")
      ["powersave", "schedutil", "performance"] true 90 9 4).2 (by decide)⟩

/-- C4 counterexample: the kernel reports the supported governors in the
order ["userspace", "conservative"]; no override, no config governor,
charging, usage 10, load 0, so no preferred governor of steps 3–4 is
supported.  The claim says the decision is "userspace" (the first
governor in kernel-reported order); the code returns "conservative",
the first element of the priority-sorted list `AVAILABLE_GOVERNORS_SORTED`. -/
theorem fallback_kernel_order_counterexample :
    get_appropriate_governor none none none ["userspace", "conservative"] true 10 0 4
      = "conservative" ∧
    ["userspace", "conservative"].headD "schedutil" = "userspace" ∧
    ("conservative" : String) ≠ "userspace" := by
  refine ⟨?_, rfl, by decide⟩
  norm_num [get_appropriate_governor, get_override, config_gov_applies, sort_governors,
    ALL_GOVERNORS, choose_governor_charging]
  decide

/-- C4 amended: when no persisted override applies, no
configuration-section governor applies, and none of the preferred
governors of steps 3–4 (performance, schedutil, ondemand, powersave) is
in the supported set, the decision returns the first governor of the
priority-sorted supported list `sort_governors available` (the fixed
order of `ALL_GOVERNORS` restricted to the kernel-reported set), with
"schedutil" if that list is empty — not the first governor in the
kernel-reported order. -/
theorem fallback_first_sorted (govFile : Option (Option String))
    (chargerGov batteryGov : Option String) (available : List String)
    (is_charging : Bool) (usage load : ℚ) (n : ℕ)
    (hov : get_override govFile = GovernorOverride.Default)
    (hc : config_gov_applies chargerGov (sort_governors available) = false)
    (hb : config_gov_applies batteryGov (sort_governors available) = false)
    (h1 : (sort_governors available).contains "performance" = false)
    (h2 : (sort_governors available).contains "schedutil" = false)
    (h3 : (sort_governors available).contains "ondemand" = false)
    (h4 : (sort_governors available).contains "powersave" = false) :
    get_appropriate_governor govFile chargerGov batteryGov available is_charging usage load n
      = (sort_governors available).headD "schedutil" := by
  have h1' : "performance" ∉ sort_governors available := by simpa using h1
  have h2' : "schedutil" ∉ sort_governors available := by simpa using h2
  have h3' : "ondemand" ∉ sort_governors available := by simpa using h3
  have h4' : "powersave" ∉ sort_governors available := by simpa using h4
  simp only [get_appropriate_governor, hov]
  rw [if_neg (by simp [hc]), if_neg (by simp [hb])]
  cases is_charging
  · rw [if_neg (by simp)]
    simp only [choose_governor_battery]
    rw [if_neg (by simp [h4']), if_neg (by simp [h2'])]
  · rw [if_pos (by simp)]
    simp only [choose_governor_charging]
    rw [if_neg (by simp [h1']), if_neg (by simp [h2']), if_neg (by simp [h3'])]

/-- Witness for `fallback_first_sorted`: only "userspace" and
"conservative" are supported, so the decision falls back to
"conservative", the head of the priority-sorted list. -/
theorem fallback_first_sorted_witness :
    get_appropriate_governor none none none ["userspace", "conservative"] true 10 0 4
      = (sort_governors ["userspace", "conservative"]).headD "schedutil" :=
  fallback_first_sorted none none none ["userspace", "conservative"] true 10 0 4
    (by decide) (by decide) (by decide) (by decide) (by decide) (by decide) (by decide)

/-- C10: reading the persisted overrides is total and never fails.
For readable governor-override contents the result is Powersave for the
trimmed token "powersave", Performance for "performance" and Default
for anything else; a missing or unreadable file gives Default.
Symmetrically, turbo-override contents give Never for "never", Always
for "always" and Auto for anything else; missing or unreadable gives
Auto. -/
theorem override_reads_total (gf tf : Option (Option String)) :
    (∀ s, gf = some (some s) →
      get_override gf =
        (if rust_trim s = "powersave" then GovernorOverride.Powersave
         else if rust_trim s = "performance" then GovernorOverride.Performance
         else GovernorOverride.Default)) ∧
    (gf = none ∨ gf = some none → get_override gf = GovernorOverride.Default) ∧
    (∀ s, tf = some (some s) →
      get_turbo_override tf =
        (if rust_trim s = "never" then TurboOverride.Never
         else if rust_trim s = "always" then TurboOverride.Always
         else TurboOverride.Auto)) ∧
    (tf = none ∨ tf = some none → get_turbo_override tf = TurboOverride.Auto) := by
  refine ⟨?_, ?_, ?_, ?_⟩
  · intro s h; subst h; simp [get_override, GovernorOverride.fromStr]
  · rintro (h | h) <;> subst h <;> rfl
  · intro s h; subst h; simp [get_turbo_override, TurboOverride.fromStr]
  · rintro (h | h) <;> subst h <;> rfl

/-- Witness for `override_reads_total`: corrupted contents with
surrounding whitespace, an unreadable file, and a missing file. -/
theorem override_reads_total_witness :
    get_override (some (some " powersave\n")) = GovernorOverride.Powersave ∧
    get_override (some none) = GovernorOverride.Default ∧
    get_turbo_override (some (some "garbage")) = TurboOverride.Auto ∧
    get_turbo_override none = TurboOverride.Auto :=
  ⟨by
    have h := (override_reads_total (some (some " powersave\n")) none).1 " powersave\n" rfl
    rw [h]; decide,
   (override_reads_total (some none) none).2.1 (Or.inr rfl),
   by
    have h := (override_reads_total none (some (some "garbage"))).2.2.1 "garbage" rfl
    rw [h]; decide,
   (override_reads_total none none).2.2.2 (Or.inl rfl)⟩

end GovernorClaims

namespace AutoCpufreq

/-! ## Configuration store (`src/config/config.rs`)

`Config::get_int("battery", key)` parses the stored string; the claim
about `get_threshold` concerns stored integer values, so the `[battery]`
section is modelled as a partial map from key to the parsed integer
(`Option Int`; `none` = option absent). -/

inductive ThresholdError
  | invalidMode (mode : String)
  | outOfRange (v : Int)
  deriving DecidableEq, Repr

/-- The key selection in `Config::get_threshold` (config.rs 138–142). -/
def threshold_key (mode : String) : Option String :=
  if mode = "start" then some "charging_start_threshold"
  else if mode = "stop" then some "charging_stop_threshold"
  else none

/-- `Config::get_threshold` (config.rs 137–151).  Returns the stored
value if it lies in 0–100, a range error otherwise, and the per-mode
default (0 for "start", 100 for "stop") when the option is absent. -/
def get_threshold (battery_section : String → Option Int) (mode : String) :
    Except ThresholdError ℕ :=
  match threshold_key mode with
  | none => Except.error (ThresholdError.invalidMode mode)
  | some key =>
    match battery_section key with
    | some v =>
      if 0 ≤ v ∧ v ≤ 100 then Except.ok v.toNat
      else Except.error (ThresholdError.outOfRange v)
    | none => Except.ok (if mode = "start" then 0 else 100)

/-- `Config::update_config` (config.rs 95–109).  The parse attempt on
the configured path is a parameter (`Except` = `Ini::load` result); the
function returns the snapshot the shared config holds afterwards, paired
with what it returns to the caller.  On parse failure the error is
logged, the old snapshot is kept, and `Ok(())` is still returned. -/
def update_config {α : Type} (current : α) (loadResult : Except String α) :
    α × Except String Unit :=
  match loadResult with
  | Except.ok newConfig => (newConfig, Except.ok ())
  | Except.error _ => (current, Except.ok ())

/-- The load-and-swap step of the file-watcher callback
(config.rs 64–68): a fresh `Ini` is loaded off to the side and replaces
the shared snapshot only when `load` succeeds. -/
def watcher_reload {α : Type} (current : α) (loadResult : Except String α) : α :=
  match loadResult with
  | Except.ok newConfig => newConfig
  | Except.error _ => current

/-! ## Cached telemetry refresh (`CachedSystem`, core.rs 20–51)

Time is an integer count of milliseconds.  `refresh_count` is a ghost
field counting the double-samples (two `refresh_cpu` calls with the
200 ms settle delay) actually performed.  `get_refreshed_system` is
called at instant `now`; if it refreshes, `last_refresh` is set to the
instant `done` at which the double-sample finishes (`Instant::now()`
after the settle delay, so `now ≤ done`). -/

structure CachedSystem where
  last_refresh : ℤ
  refresh_interval : ℤ
  refresh_count : ℕ
  deriving DecidableEq, Repr

/-- `CachedSystem::new` (core.rs 27–33): interval in seconds, initial
`last_refresh` backdated 999 s to force the first refresh.  The daemon
constructs `CACHED_SYSTEM` with `CachedSystem::new(2)` (core.rs 153). -/
def CachedSystem.new (refresh_interval_secs : ℕ) (now : ℤ) : CachedSystem :=
  { last_refresh := now - 999 * 1000
    refresh_interval := (refresh_interval_secs : ℤ) * 1000
    refresh_count := 0 }

/-- `CachedSystem::get_refreshed_system` (core.rs 35–43): refresh only
if the elapsed time strictly exceeds the interval. -/
def CachedSystem.get_refreshed_system (s : CachedSystem) (now done : ℤ) : CachedSystem :=
  if s.refresh_interval < now - s.last_refresh then
    { s with refresh_count := s.refresh_count + 1, last_refresh := done }
  else s

end AutoCpufreq

section ConfigClaims

open AutoCpufreq

example : get_threshold (fun _ => some 42) "start" = Except.ok 42 := rfl
example : get_threshold (fun _ => some 142) "stop"
    = Except.error (ThresholdError.outOfRange 142) := rfl
example : get_threshold (fun _ => none) "stop" = Except.ok 100 := rfl

/-- C2: for a stored integer threshold value v with 0 ≤ v ≤ 100,
`get_threshold` returns exactly v; for a stored value outside [0,100]
it fails with a range error; and when no value is configured it returns
0 for mode "start" and 100 for mode "stop". -/
theorem get_threshold_spec (store : String → Option Int) (v : Int) (mode key : String)
    (hmode : (mode = "start" ∧ key = "charging_start_threshold")
      ∨ (mode = "stop" ∧ key = "charging_stop_threshold")) :
    (store key = some v → 0 ≤ v → v ≤ 100 →
      get_threshold store mode = Except.ok v.toNat) ∧
    (store key = some v → (v < 0 ∨ 100 < v) →
      get_threshold store mode = Except.error (ThresholdError.outOfRange v)) ∧
    (store key = none →
      get_threshold store mode = Except.ok (if mode = "start" then 0 else 100)) := by
  have hkey : threshold_key mode = some key := by
    rcases hmode with ⟨hm, hk⟩ | ⟨hm, hk⟩ <;> subst hm <;> subst hk <;> rfl
  refine ⟨fun hs h0 h100 => ?_, fun hs hout => ?_, fun hs => ?_⟩
  · simp only [get_threshold, hkey, hs]
    rw [if_pos ⟨h0, h100⟩]
  · simp only [get_threshold, hkey, hs]
    rw [if_neg (by omega)]
  · simp only [get_threshold, hkey, hs]

/-- Witness for `get_threshold_spec`: stored value 42 for "start" is
returned as is; stored 142 for "stop" is a range error; absent "stop"
defaults to 100. -/
theorem get_threshold_spec_witness :
    get_threshold (fun _ => some 42) "start" = Except.ok 42 ∧
    get_threshold (fun _ => some 142) "stop"
      = Except.error (ThresholdError.outOfRange 142) ∧
    get_threshold (fun _ => none) "stop" = Except.ok 100 :=
  ⟨(get_threshold_spec (fun _ => some 42) 42 "start" "charging_start_threshold"
      (Or.inl ⟨rfl, rfl⟩)).1 rfl (by decide) (by decide),
   (get_threshold_spec (fun _ => some 142) 142 "stop" "charging_stop_threshold"
      (Or.inr ⟨rfl, rfl⟩)).2.1 rfl (Or.inr (by decide)),
   (get_threshold_spec (fun _ => none) 0 "stop" "charging_stop_threshold"
      (Or.inr ⟨rfl, rfl⟩)).2.2 rfl⟩

/-- C5: on both the explicit `update_config` call and the file-watcher
load-and-swap, a failed parse keeps the previous snapshot unchanged and
propagates no error to callers; the snapshot is replaced (completely)
only when the new file parses successfully. -/
theorem reload_keeps_snapshot_on_failure {α : Type} (current : α)
    (loadResult : Except String α) :
    ((update_config current loadResult).2 = Except.ok ()) ∧
    (∀ e, loadResult = Except.error e →
      (update_config current loadResult).1 = current ∧
      watcher_reload current loadResult = current) ∧
    (∀ c, loadResult = Except.ok c →
      (update_config current loadResult).1 = c ∧
      watcher_reload current loadResult = c) := by
  refine ⟨?_, fun e he => ?_, fun c hc => ?_⟩ <;>
    first
      | cases loadResult <;> rfl
      | (subst he; exact ⟨rfl, rfl⟩)
      | (subst hc; exact ⟨rfl, rfl⟩)

/-- Witness for `reload_keeps_snapshot_on_failure`: a snapshot `0` with
a failing parse stays `0` and the caller still sees `Ok(())`. -/
theorem reload_keeps_snapshot_on_failure_witness :
    (update_config (0 : ℕ) (Except.error "bad ini")).2 = Except.ok () ∧
    (update_config (0 : ℕ) (Except.error "bad ini")).1 = 0 ∧
    watcher_reload (0 : ℕ) (Except.error "bad ini") = 0 :=
  ⟨(reload_keeps_snapshot_on_failure 0 (Except.error "bad ini")).1,
   ((reload_keeps_snapshot_on_failure 0 (Except.error "bad ini")).2.1 "bad ini" rfl).1,
   ((reload_keeps_snapshot_on_failure 0 (Except.error "bad ini")).2.1 "bad ini" rfl).2⟩

/-- C8: two calls to `get_refreshed_system` whose call instants are less
than the refresh interval apart perform at most one double-sample
between them, and a single call made when more than the interval has
elapsed since `last_refresh` performs exactly one fresh double-sample
and resets the staleness clock. -/
theorem cached_system_staleness (s : CachedSystem) (t1 d1 t2 d2 : ℤ)
    (h1 : t1 ≤ d1) (hclose : t2 - t1 < s.refresh_interval) :
    ((s.get_refreshed_system t1 d1).get_refreshed_system t2 d2).refresh_count
      ≤ s.refresh_count + 1 ∧
    (∀ t d : ℤ, s.refresh_interval < t - s.last_refresh →
      (s.get_refreshed_system t d).refresh_count = s.refresh_count + 1 ∧
      (s.get_refreshed_system t d).last_refresh = d) := by
  constructor
  · unfold CachedSystem.get_refreshed_system
    by_cases hfirst : s.refresh_interval < t1 - s.last_refresh
    · rw [if_pos hfirst]
      simp only
      rw [if_neg (by omega)]
    · rw [if_neg hfirst]
      by_cases hsecond : s.refresh_interval < t2 - s.last_refresh
      · rw [if_pos hsecond]
      · rw [if_neg hsecond]
        omega
  · intro t d hdue
    unfold CachedSystem.get_refreshed_system
    rw [if_pos hdue]
    exact ⟨rfl, rfl⟩

/-- Witness for `cached_system_staleness`: a fresh cache (interval 2 s)
sampled at t = 0 and again at t = 1000 ms refreshes once and not twice;
a call past the interval refreshes and resets the clock. -/
theorem cached_system_staleness_witness :
    (((CachedSystem.new 2 0).get_refreshed_system 0 200).get_refreshed_system
        1000 1200).refresh_count ≤ (CachedSystem.new 2 0).refresh_count + 1 ∧
    ((CachedSystem.new 2 0).get_refreshed_system 0 200).refresh_count
      = (CachedSystem.new 2 0).refresh_count + 1 ∧
    ((CachedSystem.new 2 0).get_refreshed_system 0 200).last_refresh = 200 :=
  ⟨(cached_system_staleness (CachedSystem.new 2 0) 0 200 1000 1200
      (by decide) (by decide)).1,
   ((cached_system_staleness (CachedSystem.new 2 0) 0 200 1000 1200
      (by decide) (by decide)).2 0 200 (by decide)).1,
   ((cached_system_staleness (CachedSystem.new 2 0) 0 200 1000 1200
      (by decide) (by decide)).2 0 200 (by decide)).2⟩

end ConfigClaims

namespace AutoCpufreq

/-! ## Ideapad-Laptop battery manager (`src/battery/ideapad_laptop.rs`)

`setup` is modelled as the list of sysfs writes it issues, in order.
External commands (`tee` to the control files) are modelled as spawning
successfully; a failed write only logs a warning and changes nothing
about which writes are attempted. -/

inductive BatWrite
  | conservationToggle (value : ℕ)
  | threshold (battery : String) (mode : String) (value : ℕ)
  deriving DecidableEq, Repr

/-- `set_battery` (ideapad_laptop.rs 84–112): the threshold write is
attempted only when `charge_{mode}_threshold` exists for the battery;
otherwise a warning is printed and nothing is written. -/
def set_battery_trace (fileExists : Bool) (value : ℕ) (mode : String)
    (battery : String) : List BatWrite :=
  if fileExists then [BatWrite.threshold battery mode value] else []

/-- `IdeapadLaptopManager::setup` (ideapad_laptop.rs 14–49) as its write
trace.  Parameters: the `[battery] enable_thresholds` flag, the
`[battery] ideapad_laptop_conservation_mode` option, the enumerated
batteries, what `check_conservation_mode` reads from the hardware toggle
at the time it is called, per-battery-and-mode existence of the
threshold file, and the configured start/stop thresholds. -/
def ideapad_laptop_setup (enableThresholds : Bool)
    (conservationSetting : Option String) (batteries : List String)
    (hwConservation : Bool) (fileExists : String → String → Bool)
    (startT stopT : ℕ) : List BatWrite :=
  if !enableThresholds then []
  else if conservationSetting = some "true" then [BatWrite.conservationToggle 1]
  else
    let pre : List BatWrite :=
      if conservationSetting = some "false" then [BatWrite.conservationToggle 0] else []
    if hwConservation then pre
    else
      pre ++ (batteries.map (fun bat =>
        set_battery_trace (fileExists bat "start") startT "start" bat ++
        set_battery_trace (fileExists bat "stop") stopT "stop" bat)).flatten

/-! ## Power-supply scanning (`charging`, core.rs 569–628, and
`battery_info`, system_info.rs 493–547)

A power-supply directory entry carries its name and the outcome of
reading its `type`, `online` and `status` files: `none` = file absent,
`some (Except.error e)` = present but unreadable, `some (Except.ok s)` =
contents `s`. -/

structure PowerSupplyEntry where
  name : String
  type_file : Option (Except String String)
  online_file : Option (Except String String)
  status_file : Option (Except String String)
  deriving Repr

/-- `get_power_supply_ignore_list` (core.rs 569–571). -/
def get_power_supply_ignore_list : List String := ["hidpp_battery"]

/-- Rust's `str::contains(&str)`: substring test, via `List.IsInfix`. -/
def contains_substr (hay needle : String) : Bool :=
  decide (needle.data <:+: hay.data)

/-- The entry loop of `charging` (core.rs 591–625), over the entries in
file-name order (the source sorts them; the model takes the sorted
list).  `Mains` + `online == "1"` short-circuits to true, `Battery` +
`status == "Discharging"` to false; a failing `read_to_string` on a
present file propagates as an error (the `?` operator); everything else
is skipped. -/
def charging_scan : List PowerSupplyEntry → Except String Bool
  | [] => Except.ok true
  | e :: rest =>
    if get_power_supply_ignore_list.any (fun ig => contains_substr e.name ig) then
      charging_scan rest
    else
      match e.type_file with
      | none => charging_scan rest
      | some (Except.error err) => Except.error err
      | some (Except.ok ty) =>
        if rust_trim ty = "Mains" then
          match e.online_file with
          | none => charging_scan rest
          | some (Except.error err) => Except.error err
          | some (Except.ok onl) =>
            if rust_trim onl = "1" then Except.ok true else charging_scan rest
        else if rust_trim ty = "Battery" then
          match e.status_file with
          | none => charging_scan rest
          | some (Except.error err) => Except.error err
          | some (Except.ok st) =>
            if rust_trim st = "Discharging" then Except.ok false
            else charging_scan rest
        else charging_scan rest

/-- `charging` (core.rs 573–628): `none` = the power-supply directory
does not exist.  An absent directory and an empty directory both yield
true immediately. -/
def charging (dir : Option (List PowerSupplyEntry)) : Except String Bool :=
  match dir with
  | none => Except.ok true
  | some entries =>
    if entries.isEmpty then Except.ok true
    else charging_scan entries

/-- The `type` contents of an entry when present and readable, trimmed
(as both scanners do before comparing). -/
def entry_type_trim (e : PowerSupplyEntry) : Option String :=
  match e.type_file with
  | some (Except.ok ty) => some (rust_trim ty)
  | _ => none

/-- The custom-device validation in `scan_power_supply`
(system_info.rs 238–251): the configured name must resolve to an entry
whose `type` contents, trimmed and lowercased, equal "battery". -/
def entry_type_ok_battery (e : PowerSupplyEntry) : Bool :=
  match e.type_file with
  | some (Except.ok ty) => rust_to_lower (rust_trim ty) = "battery"
  | _ => false

/-- One iteration of the `scan_power_supply` directory loop
(system_info.rs 254–267). -/
def scan_step (acc : Option String × Option String) (e : PowerSupplyEntry) :
    Option String × Option String :=
  match entry_type_trim e with
  | some ty =>
    if ty = "Battery" ∧ acc.1 = none then (some e.name, acc.2)
    else if ty = "Mains" ∧ acc.2 = none then (acc.1, some e.name)
    else acc
  | none => acc

/-- `BatteryPathCache::scan_power_supply` (system_info.rs 233–270),
returning (battery name, mains name).  The `[battery] battery_device`
config option is checked first; then the directory scan keeps the first
entry typed "Battery" and the first typed "Mains" (read failures are
silently skipped here — `if let Ok`). -/
def scan_power_supply (custom : Option String) (entries : List PowerSupplyEntry) :
    Option String × Option String :=
  let battery0 : Option String :=
    match custom with
    | some dev =>
      if dev ≠ "" then
        match entries.find? (fun e => e.name = dev) with
        | some e => if entry_type_ok_battery e then some dev else none
        | none => none
      else none
    | none => none
  entries.foldl scan_step (battery0, none)

/-- The per-battery files `battery_info` reads (system_info.rs 521–531),
each `none` when absent or unreadable. -/
structure BatteryFiles where
  status : Option String
  capacity : Option String
  energy_rate : Option String
  charge_start : Option String
  charge_stop : Option String
  deriving DecidableEq, Repr

structure BatteryInfo where
  is_charging : Option Bool
  is_ac_plugged : Option Bool
  charging_start_threshold : Option ℤ
  charging_stop_threshold : Option ℤ
  battery_level : Option ℕ
  power_consumption_raw : Option String
  deriving DecidableEq, Repr

/-- `SystemInfo::battery_info` (system_info.rs 493–547).
`mainsOnline`: `none` = no mains path cached, `some none` = mains path
cached but its `online` file unreadable, `some (some s)` = contents `s`.
`battery`: the cached battery path with its files, or `none` when no
battery was discovered — in that branch the function returns early with
`is_ac_plugged = Some(true)` regardless of the mains check.  The numeric
parses keep Rust's `str::parse` on the claims' inputs; the float parse
of the power draw is left as the raw string. -/
def battery_info (mainsOnline : Option (Option String))
    (battery : Option BatteryFiles) : BatteryInfo :=
  let is_ac_plugged : Option Bool :=
    match mainsOnline with
    | some (some online) => some (rust_trim online = "1")
    | _ => some true
  match battery with
  | none =>
    { is_charging := none
      is_ac_plugged := some true
      charging_start_threshold := none
      charging_stop_threshold := none
      battery_level := none
      power_consumption_raw := none }
  | some bf =>
    { is_charging := bf.status.map (fun s => rust_to_lower (rust_trim s) = "charging")
      is_ac_plugged := is_ac_plugged
      charging_start_threshold := bf.charge_start.bind (fun s => (rust_trim s).toInt?)
      charging_stop_threshold := bf.charge_stop.bind (fun s => (rust_trim s).toInt?)
      battery_level := bf.capacity.bind (fun s => (rust_trim s).toNat?)
      power_consumption_raw := bf.energy_rate }

/-! ## Daemon supervisor (`src/core.rs`, lines 1028–1098)

`install_daemon` and `remove_daemon` are modelled as the ordered list of
side-effecting steps they perform, paired with the `Result` they
return.  The opaque shell hooks and helper-script deployment become
trace elements; the per-init-system branch (unit-file write plus the
init system's own enable/start or stop/disable commands) is one
`initSpecific` element. -/

inductive DaemonAction
  | runHook (which : String)
  | deployHelper
  | removeHelper
  | initSpecific (init : String)
  deriving DecidableEq, Repr

/-- `detect_init_system` (core.rs 1028–1046): maps the PID-1 process
name (`none` = the `ps` invocation failed) to an init-system tag. -/
def detect_init_system (pid1 : Option String) : String :=
  match pid1 with
  | some "systemd" => "systemd"
  | some "init" => "openrc"
  | some "dinit" => "dinit"
  | some "runit" => "runit"
  | some "s6-svscan" => "s6"
  | _ => "unknown"

/-- `install_daemon` (core.rs 1048–1071): runs the pre-install hook and
deploys the helper script (skipped when already present) before
dispatching on the detected init system; an unrecognized init system
bails out only after those two steps. -/
def install_daemon (pid1 : Option String) (helperPresent : Bool) :
    List DaemonAction × Except String Unit :=
  let init := detect_init_system pid1
  let pre := DaemonAction.runHook "install"
    :: (if helperPresent then [] else [DaemonAction.deployHelper])
  if init = "systemd" ∨ init = "openrc" ∨ init = "dinit"
      ∨ init = "runit" ∨ init = "s6" then
    (pre ++ [DaemonAction.initSpecific init], Except.ok ())
  else
    (pre, Except.error ("Unsupported init system: " ++ init))

/-- `remove_daemon` (core.rs 1073–1098): dispatches on the init system
first; an unrecognized init system bails out before any removal step,
while a recognized one runs the per-init removal, removes the helper
script (when present) and runs the post-removal hook. -/
def remove_daemon (pid1 : Option String) (helperPresent : Bool) :
    List DaemonAction × Except String Unit :=
  let init := detect_init_system pid1
  if init = "systemd" ∨ init = "openrc" ∨ init = "dinit"
      ∨ init = "runit" ∨ init = "s6" then
    (DaemonAction.initSpecific init
      :: (if helperPresent then [DaemonAction.removeHelper] else [])
      ++ [DaemonAction.runHook "remove"], Except.ok ())
  else
    ([], Except.error ("Unsupported init system: " ++ init))

end AutoCpufreq

namespace AutoCpufreq

/-- An entry all of whose present files are readable (`read_to_string`
does not fail); `charging` propagates a read failure on a present file
via `?`, so the no-battery claims quantify over readable entries. -/
def entry_readable (e : PowerSupplyEntry) : Prop :=
  (∀ err, e.type_file ≠ some (Except.error err)) ∧
  (∀ err, e.online_file ≠ some (Except.error err)) ∧
  (∀ err, e.status_file ≠ some (Except.error err))

theorem entry_readable_of_ok (n : String) (t o st : Option String) :
    entry_readable ⟨n, t.map Except.ok, o.map Except.ok, st.map Except.ok⟩ := by
  refine ⟨fun err h => ?_, fun err h => ?_, fun err h => ?_⟩
  · cases t <;> simp at h
  · cases o <;> simp at h
  · cases st <;> simp at h

theorem scan_step_keeps_none (m : Option String) (e : PowerSupplyEntry)
    (h : entry_type_trim e ≠ some "Battery") :
    (scan_step (none, m) e).1 = none := by
  cases hty : entry_type_trim e with
  | none => simp [scan_step, hty]
  | some ty =>
    have hnb : ty ≠ "Battery" := fun h' => h (h' ▸ hty)
    by_cases hm : ty = "Mains" ∧ m = none
    · simp [scan_step, hty, hnb, hm]
    · simp [scan_step, hty, hnb, hm]

theorem scan_fold_keeps_none (l : List PowerSupplyEntry) :
    ∀ m : Option String, (∀ e ∈ l, entry_type_trim e ≠ some "Battery") →
      (l.foldl scan_step (none, m)).1 = none := by
  induction l with
  | nil => intro m _; rfl
  | cons e rest ih =>
    intro m hno
    rw [List.foldl_cons]
    have h1 : (scan_step (none, m) e).1 = none :=
      scan_step_keeps_none m e (hno e (List.mem_cons_self e rest))
    rcases hsp : scan_step (none, m) e with ⟨a, b⟩
    rw [hsp] at h1
    simp only at h1
    subst h1
    exact ih b (fun x hx => hno x (List.mem_cons_of_mem e hx))

theorem charging_scan_no_battery (l : List PowerSupplyEntry)
    (hno : ∀ e ∈ l, entry_type_trim e ≠ some "Battery")
    (hread : ∀ e ∈ l, entry_readable e) :
    charging_scan l = Except.ok true := by
  induction l with
  | nil => rfl
  | cons e rest ih =>
    have ihrest : charging_scan rest = Except.ok true :=
      ih (fun x hx => hno x (List.mem_cons_of_mem e hx))
        (fun x hx => hread x (List.mem_cons_of_mem e hx))
    have hre : entry_readable e := hread e (List.mem_cons_self e rest)
    unfold charging_scan
    split
    · exact ihrest
    · split
      · exact ihrest
      · next err heq => exact absurd heq (hre.1 err)
      · next ty heq =>
        have htrim : entry_type_trim e = some (rust_trim ty) := by
          simp [entry_type_trim, heq]
        have hnb : rust_trim ty ≠ "Battery" :=
          fun h' => hno e (List.mem_cons_self e rest) (h' ▸ htrim)
        split
        · split
          · exact ihrest
          · next err heq2 => exact absurd heq2 (hre.2.1 err)
          · next onl heq2 =>
            split
            · rfl
            · exact ihrest
        · exact ihrest

end AutoCpufreq

section BatteryClaims

open AutoCpufreq

/-- C7: whenever battery discovery finds no battery device — the
power-supply directory is absent, empty, or contains no (readable)
entry whose trimmed `type` is "Battery", with no custom device
configured — the system is treated as always on AC power:
`scan_power_supply` yields no battery path, `battery_info` returns
`is_ac_plugged = Some(true)`, and the `charging` predicate used by the
policy engine returns true. -/
theorem no_battery_means_always_ac (entries : List PowerSupplyEntry)
    (mainsOnline : Option (Option String))
    (hno : ∀ e ∈ entries, entry_type_trim e ≠ some "Battery")
    (hread : ∀ e ∈ entries, entry_readable e) :
    (scan_power_supply none entries).1 = none ∧
    (battery_info mainsOnline none).is_ac_plugged = some true ∧
    charging (some entries) = Except.ok true ∧
    charging none = Except.ok true := by
  refine ⟨scan_fold_keeps_none entries none hno, ?_, ?_, rfl⟩
  · cases mainsOnline with
    | none => rfl
    | some o => cases o <;> rfl
  · show (if entries.isEmpty = true then (Except.ok true : Except String Bool)
        else charging_scan entries) = Except.ok true
    by_cases he : entries.isEmpty = true
    · rw [if_pos he]
    · rw [if_neg he]
      exact charging_scan_no_battery entries hno hread

/-- Witness for `no_battery_means_always_ac`: one AC adapter reporting
offline and no battery entry at all — `battery_info` still reports
AC-plugged and `charging` still returns true. -/
theorem no_battery_means_always_ac_witness :
    (scan_power_supply none
      [⟨"AC", some (Except.ok "Mains"), some (Except.ok "0"), none⟩]).1 = none ∧
    (battery_info (some (some "0")) none).is_ac_plugged = some true ∧
    charging (some
      [⟨"AC", some (Except.ok "Mains"), some (Except.ok "0"), none⟩]) = Except.ok true := by
  have hno : ∀ e ∈ [(⟨"AC", some (Except.ok "Mains"), some (Except.ok "0"), none⟩ :
      PowerSupplyEntry)], entry_type_trim e ≠ some "Battery" := by decide
  have hread : ∀ e ∈ [(⟨"AC", some (Except.ok "Mains"), some (Except.ok "0"), none⟩ :
      PowerSupplyEntry)], entry_readable e := by
    intro e he
    rw [List.mem_singleton] at he
    subst he
    exact entry_readable_of_ok "AC" (some "Mains") (some "0") none
  have h := no_battery_means_always_ac
    [⟨"AC", some (Except.ok "Mains"), some (Except.ok "0"), none⟩] (some (some "0"))
    hno hread
  exact ⟨h.1, h.2.1, h.2.2.1⟩

/-- C6: whenever configuration requests the Ideapad-Laptop conservation
mode, or the hardware toggle already reads enabled at the time setup
checks it, `IdeapadLaptopManager::setup` issues no
`charge_start_threshold`/`charge_stop_threshold` write — every write in
its trace is a conservation-toggle write — and in the requested case
(with thresholds enabled) the trace is exactly the single
conservation-toggle write of 1, the function returning early. -/
theorem ideapad_conservation_blocks_thresholds (enableThresholds : Bool)
    (cs : Option String) (bats : List String) (hw : Bool)
    (fe : String → String → Bool) (startT stopT : ℕ)
    (h : cs = some "true" ∨ hw = true) :
    (∀ w ∈ ideapad_laptop_setup enableThresholds cs bats hw fe startT stopT,
      ∃ v, w = BatWrite.conservationToggle v) ∧
    (cs = some "true" → enableThresholds = true →
      ideapad_laptop_setup enableThresholds cs bats hw fe startT stopT
        = [BatWrite.conservationToggle 1]) := by
  have key : ideapad_laptop_setup enableThresholds cs bats hw fe startT stopT = []
      ∨ ideapad_laptop_setup enableThresholds cs bats hw fe startT stopT
        = [BatWrite.conservationToggle 1]
      ∨ ideapad_laptop_setup enableThresholds cs bats hw fe startT stopT
        = [BatWrite.conservationToggle 0] := by
    unfold ideapad_laptop_setup
    rcases h with hcs | hhw
    · subst hcs
      cases enableThresholds <;> simp
    · subst hhw
      cases enableThresholds <;>
        by_cases hcs : cs = some "true" <;>
        by_cases hcf : cs = some "false" <;>
        simp [hcs, hcf]
  constructor
  · intro w hmem
    rcases key with hk | hk | hk <;> rw [hk] at hmem <;> simp at hmem
    · exact ⟨1, hmem⟩
    · exact ⟨0, hmem⟩
  · intro hcs he
    subst hcs
    subst he
    simp [ideapad_laptop_setup]

/-- Witness for `ideapad_conservation_blocks_thresholds`: thresholds
enabled, conservation mode requested, one battery with both threshold
files present — the only write is the conservation toggle. -/
theorem ideapad_conservation_blocks_thresholds_witness :
    (∀ w ∈ ideapad_laptop_setup true (some "true") ["BAT0"] false
        (fun _ _ => true) 20 80, ∃ v, w = BatWrite.conservationToggle v) ∧
    ideapad_laptop_setup true (some "true") ["BAT0"] false (fun _ _ => true) 20 80
      = [BatWrite.conservationToggle 1] :=
  ⟨(ideapad_conservation_blocks_thresholds true (some "true") ["BAT0"] false
      (fun _ _ => true) 20 80 (Or.inl rfl)).1,
   (ideapad_conservation_blocks_thresholds true (some "true") ["BAT0"] false
      (fun _ _ => true) 20 80 (Or.inl rfl)).2 rfl rfl⟩

/-- C9 counterexample: with PID 1 named "launchd" (an unrecognized init
system) and the helper script not yet deployed, `install_daemon` runs
the pre-install hook script and deploys the helper script before
checking the init system, so the failed transition does leave partial
state — contradicting the claim that no install side effects take
effect. -/
theorem unknown_init_partial_state_counterexample :
    (install_daemon (some "launchd") false).1
      = [DaemonAction.runHook "install", DaemonAction.deployHelper] ∧
    (install_daemon (some "launchd") false).2
      = Except.error "Unsupported init system: unknown" ∧
    (install_daemon (some "launchd") false).1 ≠ [] := by
  refine ⟨rfl, rfl, by decide⟩

/-- C9 amended: on an unrecognized init system both transitions return
a fatal error, and neither performs any init-specific step (unit-file
write or service registration); `remove_daemon` performs no side effect
at all, while `install_daemon` has already run the pre-install hook and
(when not yet present) deployed the helper script before the init
check, so exactly those two install side effects do take place. -/
theorem unknown_init_aborts (pid1 : Option String) (helperPresent : Bool)
    (h : detect_init_system pid1 = "unknown") :
    (∃ e, (install_daemon pid1 helperPresent).2 = Except.error e) ∧
    (install_daemon pid1 helperPresent).1
      = DaemonAction.runHook "install"
        :: (if helperPresent then [] else [DaemonAction.deployHelper]) ∧
    (∀ i, DaemonAction.initSpecific i ∉ (install_daemon pid1 helperPresent).1) ∧
    (remove_daemon pid1 helperPresent).1 = [] ∧
    (∃ e, (remove_daemon pid1 helperPresent).2 = Except.error e) := by
  have hi : install_daemon pid1 helperPresent
      = (DaemonAction.runHook "install"
          :: (if helperPresent then [] else [DaemonAction.deployHelper]),
        Except.error ("Unsupported init system: " ++ "unknown")) := by
    simp only [install_daemon, h]
    rw [if_neg (by decide)]
  have hr : remove_daemon pid1 helperPresent
      = ([], Except.error ("Unsupported init system: " ++ "unknown")) := by
    simp only [remove_daemon, h]
    rw [if_neg (by decide)]
  refine ⟨⟨_, by rw [hi]⟩, by rw [hi], ?_, by rw [hr], ⟨_, by rw [hr]⟩⟩
  intro i
  rw [hi]
  cases helperPresent <;> simp

/-- Witness for `unknown_init_aborts` at PID-1 name "launchd" with the
helper script absent. -/
theorem unknown_init_aborts_witness :
    (install_daemon (some "launchd") false).1
      = DaemonAction.runHook "install"
        :: (if false then [] else [DaemonAction.deployHelper]) ∧
    (remove_daemon (some "launchd") false).1 = [] :=
  ⟨(unknown_init_aborts (some "launchd") false rfl).2.1,
   (unknown_init_aborts (some "launchd") false rfl).2.2.2.1⟩

end BatteryClaims
